import Mathlib

/-!
Verification development for the academic timetable generator.

Part 1 shallowly embeds the data model of `app/models.py`:
* python `enum.Enum` string enums become closed inductive types;
* `datetime.time` values are modelled as minutes since midnight (`Nat`),
  `datetime.datetime` values as abstract `Nat` timestamps;
* JSON dictionaries (`Dict[str, Any]`) are modelled as association lists;
* the pydantic `Field(...)` constraints declared on each model become a
  boolean validation function (`ge`/`le` bounds and `max_length` checks,
  exactly the constraints written in the source);
* `default=`/`default_factory=` values become explicit constructor
  functions (`mkTeacher`, `mkTimetable`, ...).

Part 2 models the timetable generation engine described by the design
specification.  The engine is not part of the repository sources, so its
definitions are modelled from the spec (each such definition carries a
doc comment starting with `Modelled from the spec:`).
-/

/-- `DayOfWeek` string enum from `app/models.py`. -/
inductive DayOfWeek where
  | monday
  | tuesday
  | wednesday
  | thursday
  | friday
  | saturday
  | sunday
deriving DecidableEq, Repr, Fintype

/-- The string value carried by each `DayOfWeek` member. -/
def dayOfWeekStr : DayOfWeek → String
  | DayOfWeek.monday => "MONDAY"
  | DayOfWeek.tuesday => "TUESDAY"
  | DayOfWeek.wednesday => "WEDNESDAY"
  | DayOfWeek.thursday => "THURSDAY"
  | DayOfWeek.friday => "FRIDAY"
  | DayOfWeek.saturday => "SATURDAY"
  | DayOfWeek.sunday => "SUNDAY"

/-- Parse a string as a `DayOfWeek` member (the seven enum values). -/
def strToDayOfWeek : String → Option DayOfWeek
  | "MONDAY" => some DayOfWeek.monday
  | "TUESDAY" => some DayOfWeek.tuesday
  | "WEDNESDAY" => some DayOfWeek.wednesday
  | "THURSDAY" => some DayOfWeek.thursday
  | "FRIDAY" => some DayOfWeek.friday
  | "SATURDAY" => some DayOfWeek.saturday
  | "SUNDAY" => some DayOfWeek.sunday
  | _ => none

/-- Whether a string is one of the seven `DayOfWeek` values. -/
def isDayOfWeekStr (x : String) : Bool := (strToDayOfWeek x).isSome

/-- `CourseType` string enum from `app/models.py`. -/
inductive CourseType where
  | theory
  | lab
  | practical
  | seminar
  | project
deriving DecidableEq, Repr, Fintype

/-- `RoomType` string enum from `app/models.py`. -/
inductive RoomType where
  | classroom
  | lab
  | auditorium
  | seminarHall
  | conferenceRoom
deriving DecidableEq, Repr, Fintype

/-- `TimetableStatus` string enum from `app/models.py`. -/
inductive TimetableStatus where
  | draft
  | published
  | archived
deriving DecidableEq, Repr, Fintype

/-- Length check for an optional string field with a `max_length` bound. -/
def optLenLE (o : Option String) (n : Nat) : Bool :=
  match o with
  | none => true
  | some x => decide (x.length ≤ n)

/-- `Teacher` persistent model from `app/models.py`. -/
structure Teacher where
  id : Option Nat
  employee_id : String
  first_name : String
  last_name : String
  email : String
  phone : Option String
  department_id : Nat
  specializations : List String
  max_hours_per_week : Nat
  preferred_time_slots : List Nat
  unavailable_days : List String
  is_active : Bool
  created_at : Nat
  updated_at : Nat
deriving DecidableEq, Repr

/-- Construct a `Teacher` supplying only the fields that have no default in
the source; the remaining fields take the declared defaults
(`specializations=[]`, `max_hours_per_week=20`, `preferred_time_slots=[]`,
`unavailable_days=[]`, `is_active=True`, timestamps from `utcnow`). -/
def mkTeacher (employee_id first_name last_name email : String)
    (phone : Option String) (department_id : Nat) (now : Nat) : Teacher :=
  { id := none
    employee_id := employee_id
    first_name := first_name
    last_name := last_name
    email := email
    phone := phone
    department_id := department_id
    specializations := []
    max_hours_per_week := 20
    preferred_time_slots := []
    unavailable_days := []
    is_active := true
    created_at := now
    updated_at := now }

/-- The field constraints declared on `Teacher`:
`employee_id` ≤ 20 chars, names ≤ 50 chars, `email` ≤ 255 chars,
`phone` ≤ 20 chars, `max_hours_per_week` in `ge=1, le=40`.
`unavailable_days` is a plain JSON string list with no constraint. -/
def teacherValid (t : Teacher) : Bool :=
  decide (t.employee_id.length ≤ 20) &&
  decide (t.first_name.length ≤ 50) &&
  decide (t.last_name.length ≤ 50) &&
  decide (t.email.length ≤ 255) &&
  optLenLE t.phone 20 &&
  decide (1 ≤ t.max_hours_per_week) &&
  decide (t.max_hours_per_week ≤ 40)

/-- `TeacherCreate` request schema from `app/models.py`. -/
structure TeacherCreate where
  employee_id : String
  first_name : String
  last_name : String
  email : String
  phone : Option String
  department_id : Nat
  specializations : List String
  max_hours_per_week : Nat
  preferred_time_slots : List Nat
  unavailable_days : List String
deriving DecidableEq, Repr

/-- Construct a `TeacherCreate` with the declared defaults
(`max_hours_per_week=20`, empty lists, `phone=None`). -/
def mkTeacherCreate (employee_id first_name last_name email : String)
    (department_id : Nat) : TeacherCreate :=
  { employee_id := employee_id
    first_name := first_name
    last_name := last_name
    email := email
    phone := none
    department_id := department_id
    specializations := []
    max_hours_per_week := 20
    preferred_time_slots := []
    unavailable_days := [] }

/-- The field constraints declared on `TeacherCreate`; as in the source,
`unavailable_days` is an unconstrained string list. -/
def teacherCreateValid (t : TeacherCreate) : Bool :=
  decide (t.employee_id.length ≤ 20) &&
  decide (t.first_name.length ≤ 50) &&
  decide (t.last_name.length ≤ 50) &&
  decide (t.email.length ≤ 255) &&
  optLenLE t.phone 20 &&
  decide (1 ≤ t.max_hours_per_week) &&
  decide (t.max_hours_per_week ≤ 40)

/-- `TeacherUpdate` request schema from `app/models.py` (all optional). -/
structure TeacherUpdate where
  first_name : Option String
  last_name : Option String
  email : Option String
  phone : Option String
  specializations : Option (List String)
  max_hours_per_week : Option Nat
  preferred_time_slots : Option (List Nat)
  unavailable_days : Option (List String)
  is_active : Option Bool
deriving DecidableEq, Repr

/-- The field constraints declared on `TeacherUpdate`, applied only to
supplied fields. -/
def teacherUpdateValid (u : TeacherUpdate) : Bool :=
  optLenLE u.first_name 50 &&
  optLenLE u.last_name 50 &&
  optLenLE u.email 255 &&
  optLenLE u.phone 20 &&
  (match u.max_hours_per_week with
   | none => true
   | some v => decide (1 ≤ v) && decide (v ≤ 40))

/-- `Course` persistent model from `app/models.py`. -/
structure Course where
  id : Option Nat
  course_code : String
  name : String
  description : Option String
  credits : Nat
  course_type : CourseType
  hours_per_week : Nat
  required_room_type : Option RoomType
  required_equipment : List String
  semester_number : Nat
  department_id : Nat
  prerequisites : List Nat
  is_active : Bool
  created_at : Nat
  updated_at : Nat
deriving DecidableEq, Repr

/-- The field constraints declared on `Course`:
`course_code` ≤ 20 chars, `name` ≤ 200, `description` ≤ 1000,
`credits` in 1..10, `hours_per_week` in `ge=1, le=10`,
`semester_number` in 1..8. -/
def courseValid (c : Course) : Bool :=
  decide (c.course_code.length ≤ 20) &&
  decide (c.name.length ≤ 200) &&
  optLenLE c.description 1000 &&
  decide (1 ≤ c.credits) && decide (c.credits ≤ 10) &&
  decide (1 ≤ c.hours_per_week) && decide (c.hours_per_week ≤ 10) &&
  decide (1 ≤ c.semester_number) && decide (c.semester_number ≤ 8)

/-- `CourseCreate` request schema from `app/models.py`. -/
structure CourseCreate where
  course_code : String
  name : String
  description : Option String
  credits : Nat
  course_type : CourseType
  hours_per_week : Nat
  required_room_type : Option RoomType
  required_equipment : List String
  semester_number : Nat
  department_id : Nat
  prerequisites : List Nat
deriving DecidableEq, Repr

/-- The field constraints declared on `CourseCreate` (identical bounds to
`Course`, including `hours_per_week` with `ge=1, le=10`). -/
def courseCreateValid (c : CourseCreate) : Bool :=
  decide (c.course_code.length ≤ 20) &&
  decide (c.name.length ≤ 200) &&
  optLenLE c.description 1000 &&
  decide (1 ≤ c.credits) && decide (c.credits ≤ 10) &&
  decide (1 ≤ c.hours_per_week) && decide (c.hours_per_week ≤ 10) &&
  decide (1 ≤ c.semester_number) && decide (c.semester_number ≤ 8)

/-- `TimeSlot` persistent model from `app/models.py`; times in minutes. -/
structure TimeSlot where
  id : Option Nat
  name : String
  start_time : Nat
  end_time : Nat
  day_of_week : DayOfWeek
  is_active : Bool
  created_at : Nat
deriving DecidableEq, Repr

/-- The field constraints declared on `TimeSlot`: only `name` carries a
`max_length=50` bound; `start_time` and `end_time` are unconstrained. -/
def timeSlotValid (ts : TimeSlot) : Bool :=
  decide (ts.name.length ≤ 50)

/-- `TimeSlotCreate` request schema from `app/models.py`. -/
structure TimeSlotCreate where
  name : String
  start_time : Nat
  end_time : Nat
  day_of_week : DayOfWeek
deriving DecidableEq, Repr

/-- The field constraints declared on `TimeSlotCreate`: only the
`max_length=50` bound on `name`. -/
def timeSlotCreateValid (ts : TimeSlotCreate) : Bool :=
  decide (ts.name.length ≤ 50)

/-- `Timetable` persistent model from `app/models.py`; `generation_rules`
(a JSON dictionary) is modelled as an association list. -/
structure Timetable where
  id : Option Nat
  name : String
  semester_id : Nat
  status : TimetableStatus
  generation_rules : List (String × String)
  created_at : Nat
  updated_at : Nat
  generated_at : Option Nat
  generated_by : Option String
deriving DecidableEq, Repr

/-- Construct a `Timetable` supplying only the fields without defaults;
the rest take the declared defaults (`status=DRAFT`, `generation_rules={}`,
`generated_at=None`, `generated_by=None`, timestamps from `utcnow`). -/
def mkTimetable (now : Nat) (name : String) (semester_id : Nat) : Timetable :=
  { id := none
    name := name
    semester_id := semester_id
    status := TimetableStatus.draft
    generation_rules := []
    created_at := now
    updated_at := now
    generated_at := none
    generated_by := none }

/-- `TimetableCreate` request schema from `app/models.py`. -/
structure TimetableCreate where
  name : String
  semester_id : Nat
  generation_rules : List (String × String)
deriving DecidableEq, Repr

/-- Construct a `TimetableCreate` with the declared default
`generation_rules={}`. -/
def mkTimetableCreate (name : String) (semester_id : Nat) : TimetableCreate :=
  { name := name
    semester_id := semester_id
    generation_rules := [] }

/-- A degenerate time slot whose start equals its end, with a valid name. -/
def degenerateSlot : TimeSlotCreate :=
  { name := "Period 1", start_time := 540, end_time := 540,
    day_of_week := DayOfWeek.monday }

/-- C2 counterexample: a `TimeSlotCreate` whose start time is not strictly
earlier than its end time is nevertheless accepted by validation, so the
claim that every accepted slot satisfies `start_time < end_time` is false. -/
theorem timeslot_degenerate_accepted :
    timeSlotCreateValid degenerateSlot = true ∧
    ¬ (degenerateSlot.start_time < degenerateSlot.end_time) := by
  constructor
  · decide
  · decide

/-- C2 (amended): validation of `TimeSlot` and `TimeSlotCreate` values does
not depend on the start and end times at all — only the `name` length is
constrained — so `start_time < end_time` is not enforced by construction or
validation. -/
theorem timeslot_validation_ignores_times :
    (∀ (ts : TimeSlotCreate) (a b : Nat),
      timeSlotCreateValid { ts with start_time := a, end_time := b } =
        timeSlotCreateValid ts) ∧
    (∀ (ts : TimeSlot) (a b : Nat),
      timeSlotValid { ts with start_time := a, end_time := b } =
        timeSlotValid ts) := by
  constructor
  · intro ts a b; rfl
  · intro ts a b; rfl

/-- C6: every `Course` or `CourseCreate` value accepted by validation has
strictly positive `hours_per_week` (the declared bound is `ge=1`). -/
theorem course_hours_positive :
    (∀ c : CourseCreate, courseCreateValid c = true → 0 < c.hours_per_week) ∧
    (∀ c : Course, courseValid c = true → 0 < c.hours_per_week) := by
  constructor
  · intro c h
    simp only [courseCreateValid, Bool.and_eq_true, decide_eq_true_eq] at h
    omega
  · intro c h
    simp only [courseValid, Bool.and_eq_true, decide_eq_true_eq] at h
    omega

/-- A concrete valid course creation request. -/
def sampleCourseCreate : CourseCreate :=
  { course_code := "CS101"
    name := "Intro to Computing"
    description := none
    credits := 3
    course_type := CourseType.theory
    hours_per_week := 4
    required_room_type := none
    required_equipment := []
    semester_number := 1
    department_id := 1
    prerequisites := [] }

/-- C6 witness: the positivity theorem applied to a concrete accepted
course. -/
theorem course_hours_positive_witness :
    courseCreateValid sampleCourseCreate = true ∧
    0 < sampleCourseCreate.hours_per_week :=
  ⟨by decide, course_hours_positive.1 sampleCourseCreate (by decide)⟩

/-- C8: course weekly hours are bounded on both sides by validation —
every accepted `Course` or `CourseCreate` satisfies
`1 ≤ hours_per_week ≤ 10` (the source declares `ge=1, le=10`). -/
theorem course_hours_bounded :
    (∀ c : CourseCreate, courseCreateValid c = true →
      1 ≤ c.hours_per_week ∧ c.hours_per_week ≤ 10) ∧
    (∀ c : Course, courseValid c = true →
      1 ≤ c.hours_per_week ∧ c.hours_per_week ≤ 10) := by
  constructor
  · intro c h
    simp only [courseCreateValid, Bool.and_eq_true, decide_eq_true_eq] at h
    omega
  · intro c h
    simp only [courseValid, Bool.and_eq_true, decide_eq_true_eq] at h
    omega

/-- C8 witness: the bound theorem applied to a concrete accepted course. -/
theorem course_hours_bounded_witness :
    courseCreateValid sampleCourseCreate = true ∧
    (1 ≤ sampleCourseCreate.hours_per_week ∧
      sampleCourseCreate.hours_per_week ≤ 10) :=
  ⟨by decide, course_hours_bounded.1 sampleCourseCreate (by decide)⟩

/-- C9: a `Timetable` constructed without explicit values for the optional
fields has `status = DRAFT`, empty `generation_rules`, `generated_at = None`
and `generated_by = None`; a `TimetableCreate` likewise defaults to empty
`generation_rules`. -/
theorem timetable_defaults :
    ∀ (now : Nat) (name : String) (sid : Nat),
      (mkTimetable now name sid).status = TimetableStatus.draft ∧
      (mkTimetable now name sid).generation_rules = [] ∧
      (mkTimetable now name sid).generated_at = none ∧
      (mkTimetable now name sid).generated_by = none ∧
      (mkTimetableCreate name sid).generation_rules = [] := by
  intro now name sid
  exact ⟨rfl, rfl, rfl, rfl, rfl⟩

/-- C10: `max_hours_per_week` defaults to 20 when not supplied, and every
value accepted on create or update lies in `1..40` (declared
`default=20, ge=1, le=40` on `Teacher`, `TeacherCreate`, `TeacherUpdate`). -/
theorem teacher_max_hours_default_and_bounds :
    (∀ (e f l em : String) (ph : Option String) (dep now : Nat),
      (mkTeacher e f l em ph dep now).max_hours_per_week = 20) ∧
    (∀ (e f l em : String) (dep : Nat),
      (mkTeacherCreate e f l em dep).max_hours_per_week = 20) ∧
    (∀ t : TeacherCreate, teacherCreateValid t = true →
      1 ≤ t.max_hours_per_week ∧ t.max_hours_per_week ≤ 40) ∧
    (∀ t : Teacher, teacherValid t = true →
      1 ≤ t.max_hours_per_week ∧ t.max_hours_per_week ≤ 40) ∧
    (∀ u : TeacherUpdate, teacherUpdateValid u = true →
      ∀ v, u.max_hours_per_week = some v → 1 ≤ v ∧ v ≤ 40) := by
  refine ⟨fun _ _ _ _ _ _ _ => rfl, fun _ _ _ _ _ => rfl, ?_, ?_, ?_⟩
  · intro t h
    simp only [teacherCreateValid, Bool.and_eq_true, decide_eq_true_eq] at h
    omega
  · intro t h
    simp only [teacherValid, Bool.and_eq_true, decide_eq_true_eq] at h
    omega
  · intro u h v hv
    simp only [teacherUpdateValid, Bool.and_eq_true] at h
    rw [hv] at h
    simp only [Bool.and_eq_true, decide_eq_true_eq] at h
    omega

/-- A concrete valid teacher creation request (with a non-default load). -/
def sampleTeacherCreate : TeacherCreate :=
  { mkTeacherCreate "T001" "Ada" "Lovelace" "ada@example.edu" 1 with
    max_hours_per_week := 18 }

/-- C10 witness: the bounds applied to a concrete accepted teacher. -/
theorem teacher_max_hours_witness :
    teacherCreateValid sampleTeacherCreate = true ∧
    (1 ≤ sampleTeacherCreate.max_hours_per_week ∧
      sampleTeacherCreate.max_hours_per_week ≤ 40) :=
  ⟨by decide,
    teacher_max_hours_default_and_bounds.2.2.1 sampleTeacherCreate (by decide)⟩

/-- A teacher creation request whose `unavailable_days` entry is not one of
the seven `DayOfWeek` values. -/
def openStringTeacher : TeacherCreate :=
  { mkTeacherCreate "T002" "Bob" "Stone" "bob@example.edu" 1 with
    unavailable_days := ["FUNDAY"] }

/-- C7 counterexample: validation accepts a `Teacher` whose
`unavailable_days` contains a string that is not a `DayOfWeek` value, so the
claim that every stored element is one of the seven variants is false. -/
theorem unavailable_days_open_string_accepted :
    teacherCreateValid openStringTeacher = true ∧
    openStringTeacher.unavailable_days = ["FUNDAY"] ∧
    isDayOfWeekStr "FUNDAY" = false := by
  refine ⟨by decide, rfl, by decide⟩

/-- C7 (amended): the four string enums are closed variant types (with
exactly 7, 5, 5 and 3 members, and `DayOfWeek` values round-trip through
their string form), but `Teacher.unavailable_days` is a plain string list in
the source: validation does not inspect it, so its elements are not
restricted to `DayOfWeek` values. -/
theorem enums_closed_but_unavailable_days_unchecked :
    Fintype.card DayOfWeek = 7 ∧
    Fintype.card CourseType = 5 ∧
    Fintype.card RoomType = 5 ∧
    Fintype.card TimetableStatus = 3 ∧
    (∀ d : DayOfWeek, strToDayOfWeek (dayOfWeekStr d) = some d) ∧
    (∀ x : String, isDayOfWeekStr x = (strToDayOfWeek x).isSome) ∧
    (∀ (t : TeacherCreate) (ds : List String),
      teacherCreateValid { t with unavailable_days := ds } =
        teacherCreateValid t) := by
  refine ⟨by decide, by decide, by decide, by decide, ?_, ?_, ?_⟩
  · intro d; cases d <;> rfl
  · intro x; rfl
  · intro t ds; rfl

/-!
Part 2: the timetable generation engine, modelled from the design spec
(§3 working-set entities, §4.2 constraint model, §4.3 solver, §6
configuration, §7 error taxonomy).  The engine is not present in the
repository sources; every definition below is modelled from the spec.
Arc-consistency propagation (§4.3) is an optimisation over re-checking the
hard constraints against the current partial assignment; it is modelled
extensionally: candidate triples are re-filtered against the partial
assignment at each step, which yields the same search tree.
-/

/-- Modelled from the spec: `CourseDemand` working-set entity (§3). -/
structure CourseDemand where
  demandId : Nat
  courseId : Nat
  sectionId : Nat
  hoursPerWeek : Nat
  requiredRoomType : Option RoomType
  requiredEquipment : List String
deriving DecidableEq, Repr

/-- Modelled from the spec: `TeacherCapacity` working-set entity (§3). -/
structure TeacherCapacity where
  teacherId : Nat
  eligibleCourses : List Nat
  primaryCourses : List Nat
  maxHoursPerWeek : Nat
  unavailableDays : List DayOfWeek
  preferredSlots : List Nat
deriving DecidableEq, Repr

/-- Modelled from the spec: `RoomResource` working-set entity (§3). -/
structure RoomResource where
  roomId : Nat
  capacity : Nat
  roomType : RoomType
  equipment : List String
  isAvailable : Bool
deriving DecidableEq, Repr

/-- Modelled from the spec: `TimeSlotResource` working-set entity (§3);
times in minutes since midnight. -/
structure TimeSlotResource where
  slotId : Nat
  day : DayOfWeek
  startTime : Nat
  endTime : Nat
deriving DecidableEq, Repr

/-- Modelled from the spec: the section data the engine needs (id and
capacity, for hard constraint 5). -/
structure SectionResource where
  sectionId : Nat
  capacity : Nat
deriving DecidableEq, Repr

/-- Modelled from the spec: an `Assignment` decision (§3) — one placed
hour-unit: course demand id, chosen teacher, room and time slot ids. -/
structure Assignment where
  demandId : Nat
  teacherId : Nat
  roomId : Nat
  timeSlotId : Nat
deriving DecidableEq, Repr

/-- Modelled from the spec: the immutable working-set snapshot for one
generation run (§2, §4.1), including previously persisted entries for the
semester (used when `lock_existing_entries` is set, §6). -/
structure Snapshot where
  demands : List CourseDemand
  teachers : List TeacherCapacity
  rooms : List RoomResource
  slots : List TimeSlotResource
  sections : List SectionResource
  existingEntries : List Assignment
deriving DecidableEq, Repr

/-- Modelled from the spec: the per-run `generation_rules` configuration
(§6): step budget, soft-constraint weights, lock flag. -/
structure GenerationConfig where
  maxSearchSteps : Nat
  softWeightPreferredSlot : Nat
  softWeightPrimaryTeacher : Nat
  lockExistingEntries : Bool
deriving DecidableEq, Repr

/-- Look up a course demand by id in the snapshot. -/
def lookupDemand (s : Snapshot) (i : Nat) : Option CourseDemand :=
  s.demands.find? (fun d => d.demandId == i)

/-- Look up a teacher by id in the snapshot. -/
def lookupTeacher (s : Snapshot) (i : Nat) : Option TeacherCapacity :=
  s.teachers.find? (fun t => t.teacherId == i)

/-- Look up a room by id in the snapshot. -/
def lookupRoom (s : Snapshot) (i : Nat) : Option RoomResource :=
  s.rooms.find? (fun r => r.roomId == i)

/-- Look up a time slot by id in the snapshot. -/
def lookupSlot (s : Snapshot) (i : Nat) : Option TimeSlotResource :=
  s.slots.find? (fun sl => sl.slotId == i)

/-- Look up a section by id in the snapshot. -/
def lookupSection (s : Snapshot) (i : Nat) : Option SectionResource :=
  s.sections.find? (fun sec => sec.sectionId == i)

/-- Modelled from the spec: two slot ids overlap when both resolve to slots
on the same day whose time ranges intersect. -/
def slotsOverlap (s : Snapshot) (i j : Nat) : Bool :=
  match lookupSlot s i, lookupSlot s j with
  | some x, some y =>
      decide (x.day = y.day ∧ x.startTime < y.endTime ∧ y.startTime < x.endTime)
  | _, _ => false

/-- The section an assignment serves, through its course demand. -/
def sectionOf (s : Snapshot) (a : Assignment) : Option Nat :=
  (lookupDemand s a.demandId).map (fun d => d.sectionId)

/-- Modelled from the spec: hard constraint 5 (room fitness) — the room is
available, its capacity covers the section capacity, and it satisfies the
demand's required room type and equipment, if any. -/
def roomFits (s : Snapshot) (d : CourseDemand) (r : RoomResource) : Bool :=
  r.isAvailable &&
  (match lookupSection s d.sectionId with
   | some sec => decide (sec.capacity ≤ r.capacity)
   | none => false) &&
  (match d.requiredRoomType with
   | some rt => decide (r.roomType = rt)
   | none => true) &&
  d.requiredEquipment.all (fun e => r.equipment.contains e)

/-- Modelled from the spec: the teachers whose eligible-course set contains
the demand's course (hard constraint 1). -/
def eligibleTeachers (s : Snapshot) (d : CourseDemand) : List TeacherCapacity :=
  s.teachers.filter (fun t => t.eligibleCourses.contains d.courseId)

/-- Modelled from the spec: the rooms fitting a demand (hard constraint 5). -/
def fittingRooms (s : Snapshot) (d : CourseDemand) : List RoomResource :=
  s.rooms.filter (fun r => roomFits s d r)

/-- Modelled from the spec: binary compatibility of two assignments (hard
constraints 2–4) — if their slots overlap they must differ in teacher, in
room, and in the section they serve. -/
def compatB (s : Snapshot) (a b : Assignment) : Bool :=
  !(slotsOverlap s a.timeSlotId b.timeSlotId) ||
  decide (a.teacherId ≠ b.teacherId ∧ a.roomId ≠ b.roomId ∧
    sectionOf s a ≠ sectionOf s b)

/-- Hour-units already assigned to a teacher in a partial assignment. -/
def teacherLoad (acc : List Assignment) (t : Nat) : Nat :=
  acc.countP (fun a => a.teacherId == t)

/-- Modelled from the spec: all hard constraints (§4.2) for adding one
assignment to a partial assignment `acc`: referenced entities exist, the
teacher is eligible (1) and available on the slot's day (6), the room fits
(5), the teacher's load stays within `max_hours_per_week` (7), and the new
assignment is compatible with every prior one (2–4). -/
def entryOK (s : Snapshot) (a : Assignment) (acc : List Assignment) : Bool :=
  match lookupDemand s a.demandId, lookupTeacher s a.teacherId,
      lookupRoom s a.roomId, lookupSlot s a.timeSlotId with
  | some d, some t, some r, some sl =>
      t.eligibleCourses.contains d.courseId &&
      !(t.unavailableDays.contains sl.day) &&
      roomFits s d r &&
      decide (teacherLoad acc a.teacherId + 1 ≤ t.maxHoursPerWeek) &&
      acc.all (fun b => compatB s a b)
  | _, _, _, _ => false

/-- All (teacher, room, slot) id triples of the snapshot. -/
def allTriples (s : Snapshot) : List (Nat × Nat × Nat) :=
  s.teachers.flatMap (fun t =>
    s.rooms.flatMap (fun r =>
      s.slots.map (fun sl => (t.teacherId, r.roomId, sl.slotId))))

/-- The assignment a candidate triple induces for a demand's hour-unit. -/
def mkAssign (duId : Nat) (c : Nat × Nat × Nat) : Assignment :=
  { demandId := duId, teacherId := c.1, roomId := c.2.1, timeSlotId := c.2.2 }

/-- Tie-break rank 0 when the slot is in the teacher's preferred set. -/
def candPreferred (s : Snapshot) (c : Nat × Nat × Nat) : Nat :=
  match lookupTeacher s c.1 with
  | some t => if t.preferredSlots.contains c.2.2 then 0 else 1
  | none => 1

/-- Tie-break rank 0 when the teacher is primary for the demand's course. -/
def candPrimary (s : Snapshot) (duId : Nat) (c : Nat × Nat × Nat) : Nat :=
  match lookupDemand s duId, lookupTeacher s c.1 with
  | some d, some t => if t.primaryCourses.contains d.courseId then 0 else 1
  | _, _ => 1

/-- Modelled from the spec: the tie-break order (§4.3) — preferred-slot
match first, then primary teacher, then lowest slot id (lexicographic). -/
def candLEb (s : Snapshot) (duId : Nat) (a b : Nat × Nat × Nat) : Bool :=
  decide (candPreferred s a < candPreferred s b) ||
  (decide (candPreferred s a = candPreferred s b) &&
    (decide (candPrimary s duId a < candPrimary s duId b) ||
      (decide (candPrimary s duId a = candPrimary s duId b) &&
        decide (a.2.2 ≤ b.2.2))))

/-- Modelled from the spec: the feasible candidate triples for one hour-unit
of a demand relative to the current partial assignment, in deterministic
tie-break order (§4.3). -/
def candidates (s : Snapshot) (duId : Nat) (acc : List Assignment) :
    List (Nat × Nat × Nat) :=
  List.insertionSort (fun a b => candLEb s duId a b = true)
    ((allTriples s).filter (fun c => entryOK s (mkAssign duId c) acc))

/-- Static count of placement combinations for a demand, used by the
most-constrained-first ordering (§4.3). -/
def demandOptionCount (s : Snapshot) (d : CourseDemand) : Nat :=
  (eligibleTeachers s d).length * (fittingRooms s d).length * s.slots.length

/-- Ordering predicate for most-constrained-first demand ordering, with the
demand id as deterministic tie-break. -/
def demandLEb (s : Snapshot) (a b : CourseDemand) : Bool :=
  decide (demandOptionCount s a < demandOptionCount s b) ||
  (decide (demandOptionCount s a = demandOptionCount s b) &&
    decide (a.demandId ≤ b.demandId))

/-- Modelled from the spec: demands ordered most-constrained-first (§4.3). -/
def orderedDemands (s : Snapshot) : List CourseDemand :=
  List.insertionSort (fun a b => demandLEb s a b = true) s.demands

/-- Hour-units already assigned to a demand in a list of assignments. -/
def countAssigned (acc : List Assignment) (i : Nat) : Nat :=
  (acc.map (fun a => a.demandId)).count i

/-- Modelled from the spec: each demand contributes one pending hour-unit
per required weekly hour not already covered by locked entries (§4.2
weekly coverage, §6 `lock_existing_entries`). -/
def demandUnitsList (acc0 : List Assignment) : List CourseDemand → List Nat
  | [] => []
  | d :: ds =>
      List.replicate (d.hoursPerWeek - countAssigned acc0 d.demandId) d.demandId ++
        demandUnitsList acc0 ds

/-- The pending hour-units of a run, in most-constrained-first order. -/
def demandUnits (s : Snapshot) (acc0 : List Assignment) : List Nat :=
  demandUnitsList acc0 (orderedDemands s)

/-- Modelled from the spec: the reason carried by a `ModelError` (§7). -/
inductive ModelReason where
  | noEligibleTeacher
  | noFittingRoom
deriving DecidableEq, Repr

/-- Modelled from the spec: `ModelError` — a statically infeasible demand,
identified by its id and the reason (§4.2, §7). -/
structure ModelError where
  demandId : Nat
  reason : ModelReason
deriving DecidableEq, Repr

/-- Modelled from the spec: constraint-model construction scans the demands
and fails on the first with zero eligible teachers or zero fitting rooms
(§4.2). -/
def checkDemands (s : Snapshot) : List CourseDemand → Option ModelError
  | [] => none
  | d :: ds =>
      if eligibleTeachers s d = [] then
        some { demandId := d.demandId, reason := ModelReason.noEligibleTeacher }
      else if fittingRooms s d = [] then
        some { demandId := d.demandId, reason := ModelReason.noFittingRoom }
      else checkDemands s ds

/-- Static infeasibility check over the whole working set (§4.2). -/
def checkModel (s : Snapshot) : Option ModelError :=
  checkDemands s s.demands

/-- Modelled from the spec: the kind of a `SearchConflict` (§4.4, §7). -/
inductive ConflictKind where
  | noFeasibleCandidate
  | lockedEntryInfeasible
deriving DecidableEq, Repr

/-- Modelled from the spec: a `SearchConflict` — dynamic infeasibility found
during search, naming the demand that could not be placed (§4.4, §7). -/
structure Conflict where
  demandId : Nat
  kind : ConflictKind
deriving DecidableEq, Repr

/-- Modelled from the spec: the three ways a search can end (§4.3
termination): a complete assignment, a conflict after exhausting the root
demand's candidates, or a timeout when the step budget runs out. -/
inductive SolveOutcome where
  | success (entries : List Assignment)
  | conflict (c : Conflict)
  | timeout
deriving DecidableEq, Repr

/-- Try each candidate in order with the continuation `k` (the sub-search
with that candidate placed): a success or timeout propagates immediately, a
conflict falls through to the next candidate, and exhausting the list is a
conflict for the demand (§4.3 backtracking). -/
def tryCandsWith (duId : Nat) (k : Nat × Nat × Nat → SolveOutcome) :
    List (Nat × Nat × Nat) → SolveOutcome
  | [] =>
      SolveOutcome.conflict
        { demandId := duId, kind := ConflictKind.noFeasibleCandidate }
  | c :: cs =>
      match k c with
      | SolveOutcome.success as => SolveOutcome.success as
      | SolveOutcome.timeout => SolveOutcome.timeout
      | SolveOutcome.conflict _ => tryCandsWith duId k cs

/-- Modelled from the spec: depth-first backtracking search (§4.3).  The
fuel is the remaining step budget, checked at each assignment boundary; an
empty pending list is a complete assignment (returned in placement order);
running out of fuel with work pending is a timeout. -/
def solveAux (s : Snapshot) : Nat → List Nat → List Assignment → SolveOutcome
  | _, [], acc => SolveOutcome.success acc.reverse
  | 0, _ :: _, _ => SolveOutcome.timeout
  | fuel + 1, duId :: rest, acc =>
      tryCandsWith duId
        (fun c => solveAux s fuel rest (mkAssign duId c :: acc))
        (candidates s duId acc)

/-- Modelled from the spec: pre-assign the locked existing entries one at a
time, checking each against the hard constraints relative to the entries
already placed; an entry violating them is a conflict (§6
`lock_existing_entries`). -/
def placeLocked (s : Snapshot) :
    List Assignment → List Assignment → Except Conflict (List Assignment)
  | [], acc => Except.ok acc
  | e :: es, acc =>
      if entryOK s e acc then placeLocked s es (e :: acc)
      else
        Except.error
          { demandId := e.demandId, kind := ConflictKind.lockedEntryInfeasible }

/-- The initial partial assignment of a run: the locked existing entries
when `lock_existing_entries` is set, otherwise empty (§6). -/
def lockedAcc (s : Snapshot) (cfg : GenerationConfig) :
    Except Conflict (List Assignment) :=
  if cfg.lockExistingEntries then placeLocked s s.existingEntries []
  else Except.ok []

/-- Modelled from the spec: the outcome of a generation run (§7 error
taxonomy): success, `SearchConflict`, `TimeoutError`, `ModelError` or
`SnapshotError`. -/
inductive GenResult where
  | success (entries : List Assignment)
  | conflict (c : Conflict)
  | timeout
  | modelError (e : ModelError)
  | snapshotError
deriving DecidableEq, Repr

/-- Modelled from the spec: one generation run (§2 control flow):
`SnapshotError` when there is nothing to schedule (§4.1), `ModelError` on
static infeasibility before any search step (§4.2), then pre-assignment of
locked entries and the backtracking search under the step budget (§4.3). -/
def generate (s : Snapshot) (cfg : GenerationConfig) : GenResult :=
  if s.sections.isEmpty || s.slots.isEmpty then GenResult.snapshotError
  else
    match checkModel s with
    | some e => GenResult.modelError e
    | none =>
      match lockedAcc s cfg with
      | Except.error c => GenResult.conflict c
      | Except.ok acc0 =>
        match solveAux s cfg.maxSearchSteps (demandUnits s acc0) acc0 with
        | SolveOutcome.success as => GenResult.success as
        | SolveOutcome.conflict c => GenResult.conflict c
        | SolveOutcome.timeout => GenResult.timeout

/-!
Proof layer: invariants of the solver and of the generation pipeline.
-/

/-- Validity of a partial assignment stack: each entry satisfied the hard
constraints relative to the entries placed before it (its tail). -/
def AccOK (s : Snapshot) : List Assignment → Prop
  | [] => True
  | a :: rest => entryOK s a rest = true ∧ AccOK s rest

theorem mem_candidates {s : Snapshot} {duId : Nat} {acc : List Assignment}
    {c : Nat × Nat × Nat} (h : c ∈ candidates s duId acc) :
    entryOK s (mkAssign duId c) acc = true := by
  unfold candidates at h
  have h2 :=
    (List.perm_insertionSort (fun a b => candLEb s duId a b = true) _).mem_iff.mp h
  exact (List.mem_filter.mp h2).2

theorem tryCandsWith_success {duId : Nat} {k : Nat × Nat × Nat → SolveOutcome}
    (Q : List Assignment → Prop) :
    ∀ cs : List (Nat × Nat × Nat),
      (∀ c ∈ cs, ∀ as, k c = SolveOutcome.success as → Q as) →
      ∀ as, tryCandsWith duId k cs = SolveOutcome.success as → Q as := by
  intro cs
  induction cs with
  | nil =>
      intro _ as h
      exact SolveOutcome.noConfusion h
  | cons c cs ih =>
      intro hk as h
      cases hkc : k c with
      | success as2 =>
          simp only [tryCandsWith, hkc, SolveOutcome.success.injEq] at h
          subst h
          exact hk c (List.mem_cons_self c cs) as2 hkc
      | timeout =>
          simp only [tryCandsWith, hkc] at h
          exact SolveOutcome.noConfusion h
      | conflict x =>
          simp only [tryCandsWith, hkc] at h
          exact ih (fun c' hc' => hk c' (List.mem_cons_of_mem c hc')) as h

theorem solve_success_spec {s : Snapshot} :
    ∀ (fuel : Nat) (p : List Nat) (acc as : List Assignment),
      AccOK s acc → solveAux s fuel p acc = SolveOutcome.success as →
      ∃ ext, as = acc.reverse ++ ext ∧
        ext.map (fun a => a.demandId) = p ∧ AccOK s as.reverse := by
  intro fuel
  induction fuel with
  | zero =>
      intro p acc as hAcc h
      cases p with
      | nil =>
          simp only [solveAux, SolveOutcome.success.injEq] at h
          subst h
          refine ⟨[], by simp, rfl, ?_⟩
          simpa using hAcc
      | cons d p =>
          simp only [solveAux] at h
          exact SolveOutcome.noConfusion h
  | succ fuel ih =>
      intro p acc as hAcc h
      cases p with
      | nil =>
          simp only [solveAux, SolveOutcome.success.injEq] at h
          subst h
          refine ⟨[], by simp, rfl, ?_⟩
          simpa using hAcc
      | cons duId rest =>
          simp only [solveAux] at h
          refine tryCandsWith_success
            (fun as2 => ∃ ext, as2 = acc.reverse ++ ext ∧
              ext.map (fun a => a.demandId) = duId :: rest ∧ AccOK s as2.reverse)
            (candidates s duId acc) ?_ as h
          intro c hc as2 hk
          have hek : entryOK s (mkAssign duId c) acc = true := mem_candidates hc
          obtain ⟨ext, he, hm, hok⟩ :=
            ih rest (mkAssign duId c :: acc) as2 ⟨hek, hAcc⟩ hk
          refine ⟨mkAssign duId c :: ext, ?_, ?_, hok⟩
          · rw [he]; simp
          · simp [hm, mkAssign]

theorem entryOK_all_compat {s : Snapshot} {a : Assignment}
    {acc : List Assignment} (h : entryOK s a acc = true) :
    ∀ b ∈ acc, compatB s a b = true := by
  unfold entryOK at h
  split at h
  · simp only [Bool.and_eq_true, List.all_eq_true] at h
    exact fun b hb => h.2 b hb
  · exact Bool.noConfusion h

theorem AccOK_pairwise {s : Snapshot} :
    ∀ l : List Assignment, AccOK s l →
      l.Pairwise (fun a b => compatB s a b = true) := by
  intro l
  induction l with
  | nil => intro _; exact List.Pairwise.nil
  | cons a rest ih =>
      intro h
      exact List.Pairwise.cons (entryOK_all_compat h.1) (ih h.2)

theorem slotsOverlap_symm (s : Snapshot) (i j : Nat) :
    slotsOverlap s i j = slotsOverlap s j i := by
  unfold slotsOverlap
  cases lookupSlot s i <;> cases lookupSlot s j <;>
    simp only [decide_eq_decide]
  constructor
  · rintro ⟨h1, h2, h3⟩; exact ⟨h1.symm, h3, h2⟩
  · rintro ⟨h1, h2, h3⟩; exact ⟨h1.symm, h3, h2⟩

theorem compat_implies {s : Snapshot} {a b : Assignment}
    (h : compatB s b a = true)
    (hshare : a.teacherId = b.teacherId ∨ a.roomId = b.roomId ∨
      sectionOf s a = sectionOf s b) :
    slotsOverlap s a.timeSlotId b.timeSlotId = false := by
  unfold compatB at h
  simp only [Bool.or_eq_true, Bool.not_eq_true', decide_eq_true_eq] at h
  cases h with
  | inl h0 =>
      rw [slotsOverlap_symm]
      exact h0
  | inr h0 =>
      obtain ⟨ht, hr, hs⟩ := h0
      rcases hshare with h1 | h1 | h1
      · exact absurd h1.symm ht
      · exact absurd h1.symm hr
      · exact absurd h1.symm hs

theorem placeLocked_sound {s : Snapshot} :
    ∀ (es acc acc' : List Assignment), AccOK s acc →
      placeLocked s es acc = Except.ok acc' → AccOK s acc' := by
  intro es
  induction es with
  | nil =>
      intro acc acc' hAcc h
      simp only [placeLocked, Except.ok.injEq] at h
      subst h
      exact hAcc
  | cons e es ih =>
      intro acc acc' hAcc h
      unfold placeLocked at h
      split at h
      · next he => exact ih (e :: acc) acc' ⟨he, hAcc⟩ h
      · exact Except.noConfusion h

theorem lockedAcc_sound {s : Snapshot} {cfg : GenerationConfig}
    {acc0 : List Assignment} (h : lockedAcc s cfg = Except.ok acc0) :
    AccOK s acc0 := by
  unfold lockedAcc at h
  split at h
  · exact placeLocked_sound s.existingEntries [] acc0 trivial h
  · simp only [Except.ok.injEq] at h
    subst h
    trivial

theorem AccOK_suffix {s : Snapshot} :
    ∀ (xs ys : List Assignment), AccOK s (xs ++ ys) → AccOK s ys := by
  intro xs
  induction xs with
  | nil => intro ys h; exact h
  | cons x xs ih => intro ys h; exact ih ys h.2

theorem placeLocked_complete {s : Snapshot} :
    ∀ (es acc : List Assignment), AccOK s (es.reverse ++ acc) →
      placeLocked s es acc = Except.ok (es.reverse ++ acc) := by
  intro es
  induction es with
  | nil => intro acc h; simp [placeLocked]
  | cons e es ih =>
      intro acc h
      rw [List.reverse_cons, List.append_assoc, List.singleton_append] at h
      have he : entryOK s e acc = true := (AccOK_suffix es.reverse (e :: acc) h).1
      unfold placeLocked
      rw [if_pos he, ih (e :: acc) h]
      simp

theorem generate_success_inv {s : Snapshot} {cfg : GenerationConfig}
    {as : List Assignment} (h : generate s cfg = GenResult.success as) :
    (s.sections.isEmpty || s.slots.isEmpty) = false ∧
    checkModel s = none ∧
    ∃ acc0, lockedAcc s cfg = Except.ok acc0 ∧
      solveAux s cfg.maxSearchSteps (demandUnits s acc0) acc0 =
        SolveOutcome.success as := by
  unfold generate at h
  by_cases hsnap : (s.sections.isEmpty || s.slots.isEmpty) = true
  · rw [if_pos hsnap] at h
    exact GenResult.noConfusion h
  · rw [if_neg hsnap] at h
    have hsnap' : (s.sections.isEmpty || s.slots.isEmpty) = false := by
      simpa using hsnap
    cases hcheck : checkModel s with
    | some e =>
        simp only [hcheck] at h
        exact GenResult.noConfusion h
    | none =>
        simp only [hcheck] at h
        cases hlock : lockedAcc s cfg with
        | error c =>
            simp only [hlock] at h
            exact GenResult.noConfusion h
        | ok acc0 =>
            simp only [hlock] at h
            cases hsolve : solveAux s cfg.maxSearchSteps (demandUnits s acc0) acc0 with
            | success as2 =>
                simp only [hsolve, GenResult.success.injEq] at h
                subst h
                exact ⟨hsnap', rfl, acc0, rfl, hsolve⟩
            | conflict c =>
                simp only [hsolve] at h
                exact GenResult.noConfusion h
            | timeout =>
                simp only [hsolve] at h
                exact GenResult.noConfusion h

theorem generate_eq_of (s : Snapshot) (cfg : GenerationConfig)
    (acc0 : List Assignment)
    (h1 : (s.sections.isEmpty || s.slots.isEmpty) = false)
    (h2 : checkModel s = none)
    (h3 : lockedAcc s cfg = Except.ok acc0) :
    generate s cfg =
      match solveAux s cfg.maxSearchSteps (demandUnits s acc0) acc0 with
      | SolveOutcome.success as => GenResult.success as
      | SolveOutcome.conflict c => GenResult.conflict c
      | SolveOutcome.timeout => GenResult.timeout := by
  unfold generate
  rw [h1, h2, h3]
  rfl

theorem generate_eq_err (s : Snapshot) (cfg : GenerationConfig) (c : Conflict)
    (h1 : (s.sections.isEmpty || s.slots.isEmpty) = false)
    (h2 : checkModel s = none)
    (h3 : lockedAcc s cfg = Except.error c) :
    generate s cfg = GenResult.conflict c := by
  unfold generate
  rw [h1, h2, h3]
  rfl

theorem solveAux_nil (s : Snapshot) (fuel : Nat) (acc : List Assignment) :
    solveAux s fuel [] acc = SolveOutcome.success acc.reverse := by
  cases fuel <;> rfl

theorem checkDemands_ex (s : Snapshot) (l : List Assignment) :
    ∀ ds, checkDemands { s with existingEntries := l } ds = checkDemands s ds := by
  intro ds
  induction ds with
  | nil => rfl
  | cons d ds ih =>
      unfold checkDemands
      rw [show eligibleTeachers { s with existingEntries := l } d =
          eligibleTeachers s d from rfl,
        show fittingRooms { s with existingEntries := l } d =
          fittingRooms s d from rfl, ih]

theorem tryCandsWith_congr {duId : Nat} {k k' : Nat × Nat × Nat → SolveOutcome} :
    ∀ cs, (∀ c ∈ cs, k c = k' c) →
      tryCandsWith duId k cs = tryCandsWith duId k' cs := by
  intro cs
  induction cs with
  | nil => intro _; rfl
  | cons c cs ih =>
      intro h
      unfold tryCandsWith
      rw [h c (List.mem_cons_self c cs),
        ih (fun c' hc' => h c' (List.mem_cons_of_mem c hc'))]

theorem solveAux_ex (s : Snapshot) (l : List Assignment) :
    ∀ (fuel : Nat) (p : List Nat) (acc : List Assignment),
      solveAux { s with existingEntries := l } fuel p acc = solveAux s fuel p acc := by
  intro fuel
  induction fuel with
  | zero => intro p acc; cases p <;> rfl
  | succ fuel ih =>
      intro p acc
      cases p with
      | nil => rfl
      | cons duId rest =>
          show tryCandsWith duId
              (fun c => solveAux { s with existingEntries := l } fuel rest
                (mkAssign duId c :: acc))
              (candidates { s with existingEntries := l } duId acc) =
            tryCandsWith duId
              (fun c => solveAux s fuel rest (mkAssign duId c :: acc))
              (candidates s duId acc)
          rw [show candidates { s with existingEntries := l } duId acc =
            candidates s duId acc from rfl]
          exact tryCandsWith_congr (candidates s duId acc)
            (fun c _ => ih rest (mkAssign duId c :: acc))

theorem placeLocked_ex (s : Snapshot) (l : List Assignment) :
    ∀ (es acc : List Assignment),
      placeLocked { s with existingEntries := l } es acc = placeLocked s es acc := by
  intro es
  induction es with
  | nil => intro acc; rfl
  | cons e es ih =>
      intro acc
      unfold placeLocked
      rw [show entryOK { s with existingEntries := l } e acc =
        entryOK s e acc from rfl, ih (e :: acc)]

theorem countAssigned_append (l1 l2 : List Assignment) (i : Nat) :
    countAssigned (l1 ++ l2) i = countAssigned l1 i + countAssigned l2 i := by
  simp [countAssigned]

theorem countAssigned_reverse (l : List Assignment) (i : Nat) :
    countAssigned l.reverse i = countAssigned l i := by
  simp [countAssigned]

theorem count_units_ge (acc0 : List Assignment) :
    ∀ (ds : List CourseDemand) (d : CourseDemand), d ∈ ds →
      d.hoursPerWeek - countAssigned acc0 d.demandId ≤
        (demandUnitsList acc0 ds).count d.demandId := by
  intro ds
  induction ds with
  | nil => intro d hd; cases hd
  | cons d0 ds ih =>
      intro d hd
      unfold demandUnitsList
      rw [List.count_append]
      rcases List.mem_cons.mp hd with h | h
      · subst h
        have hrep := List.count_replicate_self d.demandId
          (d.hoursPerWeek - countAssigned acc0 d.demandId)
        omega
      · have := ih d h
        omega

theorem demandUnitsList_nil (acc0 : List Assignment) :
    ∀ ds : List CourseDemand,
      (∀ d ∈ ds, d.hoursPerWeek - countAssigned acc0 d.demandId = 0) →
      demandUnitsList acc0 ds = [] := by
  intro ds
  induction ds with
  | nil => intro _; rfl
  | cons d0 ds ih =>
      intro h
      unfold demandUnitsList
      rw [h d0 (List.mem_cons_self d0 ds), List.replicate_zero, List.nil_append]
      exact ih (fun d hd => h d (List.mem_cons_of_mem d0 hd))

theorem tryCandsWith_conflict_mono {duId : Nat}
    {k k' : Nat × Nat × Nat → SolveOutcome} :
    ∀ cs, (∀ c ∈ cs, ∀ x, k c = SolveOutcome.conflict x →
        k' c = SolveOutcome.conflict x) →
      ∀ y, tryCandsWith duId k cs = SolveOutcome.conflict y →
        tryCandsWith duId k' cs = SolveOutcome.conflict y := by
  intro cs
  induction cs with
  | nil => intro _ y h; exact h
  | cons c cs ih =>
      intro hk y h
      cases hkc : k c with
      | success as =>
          simp only [tryCandsWith, hkc] at h
          exact SolveOutcome.noConfusion h
      | timeout =>
          simp only [tryCandsWith, hkc] at h
          exact SolveOutcome.noConfusion h
      | conflict x =>
          have hk'c := hk c (List.mem_cons_self c cs) x hkc
          simp only [tryCandsWith, hkc] at h
          simp only [tryCandsWith, hk'c]
          exact ih (fun c' hc' => hk c' (List.mem_cons_of_mem c hc')) y h

theorem solveAux_conflict_mono {s : Snapshot} :
    ∀ (f g : Nat), f ≤ g → ∀ (p : List Nat) (acc : List Assignment) (x : Conflict),
      solveAux s f p acc = SolveOutcome.conflict x →
      solveAux s g p acc = SolveOutcome.conflict x := by
  intro f
  induction f with
  | zero =>
      intro g hg p acc x h
      cases p with
      | nil =>
          rw [solveAux_nil] at h
          exact SolveOutcome.noConfusion h
      | cons a b =>
          simp only [solveAux] at h
          exact SolveOutcome.noConfusion h
  | succ f ih =>
      intro g hg p acc x h
      cases p with
      | nil =>
          rw [solveAux_nil] at h
          exact SolveOutcome.noConfusion h
      | cons duId rest =>
          cases g with
          | zero => omega
          | succ g' =>
              simp only [solveAux] at h ⊢
              exact tryCandsWith_conflict_mono (candidates s duId acc)
                (fun c _ y hy => ih g' (by omega) rest (mkAssign duId c :: acc) y hy)
                x h

/-- C1: every pair of entries in a generated timetable result that shares a
teacher, a room, or a section has non-overlapping time slots (hard
constraints 2–4 are preserved by every assignment the solver or the locked
pre-assignment admits). -/
theorem generated_result_no_resource_overlap
    (s : Snapshot) (cfg : GenerationConfig) (as : List Assignment)
    (h : generate s cfg = GenResult.success as) :
    as.Pairwise (fun a b =>
      (a.teacherId = b.teacherId ∨ a.roomId = b.roomId ∨
        sectionOf s a = sectionOf s b) →
      slotsOverlap s a.timeSlotId b.timeSlotId = false) := by
  obtain ⟨hsnap, hcheck, acc0, hlock, hsolve⟩ := generate_success_inv h
  have hAcc0 : AccOK s acc0 := lockedAcc_sound hlock
  obtain ⟨ext, hext, hmap, hAccAs⟩ :=
    solve_success_spec cfg.maxSearchSteps (demandUnits s acc0) acc0 as hAcc0 hsolve
  have hp := AccOK_pairwise as.reverse hAccAs
  rw [List.pairwise_reverse] at hp
  exact hp.imp (fun h' hs => compat_implies h' hs)

/-- C4: generation is deterministic (it is a pure function of snapshot and
configuration) and idempotent: a successful run, re-executed on the snapshot
extended with its own produced entries under `lock_existing_entries=true`,
reproduces exactly the same assignment. -/
theorem generation_idempotent_locked
    (s : Snapshot) (cfg : GenerationConfig) (as : List Assignment)
    (h : generate s cfg = GenResult.success as) :
    generate { s with existingEntries := as }
      { cfg with lockExistingEntries := true } = GenResult.success as := by
  obtain ⟨hsnap, hcheck, acc0, hlock, hsolve⟩ := generate_success_inv h
  have hAcc0 : AccOK s acc0 := lockedAcc_sound hlock
  obtain ⟨ext, hext, hmap, hAccAs⟩ :=
    solve_success_spec cfg.maxSearchSteps (demandUnits s acc0) acc0 as hAcc0 hsolve
  have hcover : ∀ d ∈ orderedDemands s,
      d.hoursPerWeek - countAssigned as.reverse d.demandId = 0 := by
    intro d hd
    have hc1 : countAssigned as d.demandId =
        countAssigned acc0.reverse d.demandId + countAssigned ext d.demandId := by
      rw [hext]
      exact countAssigned_append acc0.reverse ext d.demandId
    have hc2 : countAssigned ext d.demandId =
        (demandUnitsList acc0 (orderedDemands s)).count d.demandId := by
      unfold countAssigned
      rw [hmap]
      rfl
    have hc3 := count_units_ge acc0 (orderedDemands s) d hd
    have hc4 := countAssigned_reverse as d.demandId
    have hc5 := countAssigned_reverse acc0 d.demandId
    omega
  have hsnap2 : (({ s with existingEntries := as } : Snapshot).sections.isEmpty ||
      ({ s with existingEntries := as } : Snapshot).slots.isEmpty) = false := hsnap
  have hcheck2 : checkModel { s with existingEntries := as } = none :=
    (checkDemands_ex s as s.demands).trans hcheck
  have hAccRev : AccOK s (as.reverse ++ ([] : List Assignment)) := by
    rw [List.append_nil]
    exact hAccAs
  have hlock2 : lockedAcc { s with existingEntries := as }
      { cfg with lockExistingEntries := true } = Except.ok as.reverse := by
    show placeLocked { s with existingEntries := as } as [] = Except.ok as.reverse
    rw [placeLocked_ex s as as []]
    have h2 := placeLocked_complete as [] hAccRev
    rw [List.append_nil] at h2
    exact h2
  rw [generate_eq_of { s with existingEntries := as }
    { cfg with lockExistingEntries := true } as.reverse hsnap2 hcheck2 hlock2]
  have hunits : demandUnits { s with existingEntries := as } as.reverse = [] := by
    rw [show demandUnits { s with existingEntries := as } as.reverse =
      demandUnitsList as.reverse (orderedDemands s) from rfl]
    exact demandUnitsList_nil as.reverse (orderedDemands s) hcover
  rw [hunits, solveAux_nil, List.reverse_reverse]

/-- C5: exceeding the step budget is reported as a timeout, never as a
conflict: a run that reaches the budget boundary with work still pending
returns `timeout`, and a `SearchConflict` outcome is unchanged by raising
the budget — so no input turns budget exhaustion into a `SearchConflict`. -/
theorem timeout_distinct_from_conflict :
    (∀ (s : Snapshot) (duId : Nat) (rest : List Nat) (acc : List Assignment),
      solveAux s 0 (duId :: rest) acc = SolveOutcome.timeout) ∧
    (∀ (s : Snapshot) (cfg : GenerationConfig) (c : Conflict) (n : Nat),
      generate s cfg = GenResult.conflict c → cfg.maxSearchSteps ≤ n →
      generate s { cfg with maxSearchSteps := n } = GenResult.conflict c) := by
  constructor
  · intro s duId rest acc
    rfl
  · intro s cfg c n h hn
    unfold generate at h
    by_cases hsnap : (s.sections.isEmpty || s.slots.isEmpty) = true
    · rw [if_pos hsnap] at h
      exact GenResult.noConfusion h
    · rw [if_neg hsnap] at h
      have hsnap' : (s.sections.isEmpty || s.slots.isEmpty) = false := by
        simpa using hsnap
      cases hcheck : checkModel s with
      | some e =>
          simp only [hcheck] at h
          exact GenResult.noConfusion h
      | none =>
          simp only [hcheck] at h
          cases hlock : lockedAcc s cfg with
          | error c2 =>
              simp only [hlock, GenResult.conflict.injEq] at h
              subst h
              exact generate_eq_err s { cfg with maxSearchSteps := n } c2
                hsnap' hcheck hlock
          | ok acc0 =>
              simp only [hlock] at h
              cases hsolve : solveAux s cfg.maxSearchSteps (demandUnits s acc0) acc0 with
              | success as =>
                  simp only [hsolve] at h
                  exact GenResult.noConfusion h
              | timeout =>
                  simp only [hsolve] at h
                  exact GenResult.noConfusion h
              | conflict c2 =>
                  simp only [hsolve, GenResult.conflict.injEq] at h
                  subst h
                  have hmono := solveAux_conflict_mono cfg.maxSearchSteps n hn
                    (demandUnits s acc0) acc0 c2 hsolve
                  rw [generate_eq_of s { cfg with maxSearchSteps := n } acc0
                    hsnap' hcheck hlock]
                  show (match solveAux s n (demandUnits s acc0) acc0 with
                    | SolveOutcome.success as => GenResult.success as
                    | SolveOutcome.conflict c => GenResult.conflict c
                    | SolveOutcome.timeout => GenResult.timeout) =
                    GenResult.conflict c2
                  rw [hmono]

/-- A `ModelError` correctly identifies a statically infeasible demand: some
demand of the snapshot has the error's id, and the stated reason holds for
it (no eligible teacher, or no fitting room). -/
def modelErrorSound (s : Snapshot) (e : ModelError) : Prop :=
  ∃ d ∈ s.demands, e.demandId = d.demandId ∧
    ((e.reason = ModelReason.noEligibleTeacher ∧ eligibleTeachers s d = []) ∨
     (e.reason = ModelReason.noFittingRoom ∧ fittingRooms s d = []))

theorem checkDemands_finds {s : Snapshot} :
    ∀ (ds : List CourseDemand) (d : CourseDemand), d ∈ ds →
      (eligibleTeachers s d = [] ∨ fittingRooms s d = []) →
      ∃ e, checkDemands s ds = some e ∧ ∃ d' ∈ ds, e.demandId = d'.demandId ∧
        ((e.reason = ModelReason.noEligibleTeacher ∧ eligibleTeachers s d' = []) ∨
         (e.reason = ModelReason.noFittingRoom ∧ fittingRooms s d' = [])) := by
  intro ds
  induction ds with
  | nil => intro d hd; cases hd
  | cons d0 ds ih =>
      intro d hd hbad
      by_cases h1 : eligibleTeachers s d0 = []
      · refine ⟨⟨d0.demandId, ModelReason.noEligibleTeacher⟩, ?_, d0,
          List.mem_cons_self d0 ds, rfl, Or.inl ⟨rfl, h1⟩⟩
        simp [checkDemands, h1]
      · by_cases h2 : fittingRooms s d0 = []
        · refine ⟨⟨d0.demandId, ModelReason.noFittingRoom⟩, ?_, d0,
            List.mem_cons_self d0 ds, rfl, Or.inr ⟨rfl, h2⟩⟩
          simp [checkDemands, h1, h2]
        · rcases List.mem_cons.mp hd with heq | hd'
          · subst heq
            rcases hbad with hb | hb
            · exact absurd hb h1
            · exact absurd hb h2
          · obtain ⟨e, he, d', hd'', hrest⟩ := ih d hd' hbad
            refine ⟨e, ?_, d', List.mem_cons_of_mem d0 hd'', hrest⟩
            simp [checkDemands, h1, h2, he]

/-- C3: a `CourseDemand` with zero eligible teachers or zero fitting rooms
makes generation fail with a `ModelError` that identifies a statically
infeasible demand and its reason; the budget parameter is arbitrary (it may
even be zero), so the failure is reported before any solver search step can
execute. -/
theorem model_error_reported_before_search
    (s : Snapshot) (cfg : GenerationConfig) (n : Nat) (d : CourseDemand)
    (h1 : s.sections.isEmpty = false) (h2 : s.slots.isEmpty = false)
    (hd : d ∈ s.demands)
    (hbad : eligibleTeachers s d = [] ∨ fittingRooms s d = []) :
    ∃ e : ModelError,
      generate s { cfg with maxSearchSteps := n } = GenResult.modelError e ∧
      modelErrorSound s e := by
  obtain ⟨e, he, hsound⟩ := checkDemands_finds s.demands d hd hbad
  refine ⟨e, ?_, hsound⟩
  unfold generate
  rw [h1, h2, show checkModel s = some e from he]
  rfl

/-!
Concrete scenarios used by the witnesses (§8 of the spec: trivial success,
forced conflict, static infeasibility).
-/

/-- A two-hour course demand. -/
def demandTwoHours : CourseDemand where
  demandId := 1
  courseId := 10
  sectionId := 100
  hoursPerWeek := 2
  requiredRoomType := none
  requiredEquipment := []

/-- A teacher eligible (and primary) for course 10. -/
def teacherMain : TeacherCapacity where
  teacherId := 20
  eligibleCourses := [10]
  primaryCourses := [10]
  maxHoursPerWeek := 20
  unavailableDays := []
  preferredSlots := []

/-- An available classroom. -/
def roomMain : RoomResource where
  roomId := 30
  capacity := 50
  roomType := RoomType.classroom
  equipment := []
  isAvailable := true

/-- Monday 9:00–10:00. -/
def slotNine : TimeSlotResource where
  slotId := 40
  day := DayOfWeek.monday
  startTime := 540
  endTime := 600

/-- Monday 10:00–11:00. -/
def slotTen : TimeSlotResource where
  slotId := 41
  day := DayOfWeek.monday
  startTime := 600
  endTime := 660

/-- A 40-seat section. -/
def sectionMain : SectionResource where
  sectionId := 100
  capacity := 40

/-- Trivial-success snapshot: one demand, one teacher, one room, two slots. -/
def snapTrivial : Snapshot where
  demands := [demandTwoHours]
  teachers := [teacherMain]
  rooms := [roomMain]
  slots := [slotNine, slotTen]
  sections := [sectionMain]
  existingEntries := []

/-- A default configuration with a 10-step budget and no locking. -/
def cfgTrivial : GenerationConfig where
  maxSearchSteps := 10
  softWeightPreferredSlot := 1
  softWeightPrimaryTeacher := 1
  lockExistingEntries := false

/-- The assignment the trivial-success snapshot generates. -/
def entriesTrivial : List Assignment :=
  [{ demandId := 1, teacherId := 20, roomId := 30, timeSlotId := 40 },
   { demandId := 1, teacherId := 20, roomId := 30, timeSlotId := 41 }]

/-- C1 witness: the non-overlap theorem applied to the trivial-success run. -/
theorem generated_result_no_resource_overlap_witness :
    generate snapTrivial cfgTrivial = GenResult.success entriesTrivial ∧
    entriesTrivial.Pairwise (fun a b =>
      (a.teacherId = b.teacherId ∨ a.roomId = b.roomId ∨
        sectionOf snapTrivial a = sectionOf snapTrivial b) →
      slotsOverlap snapTrivial a.timeSlotId b.timeSlotId = false) :=
  ⟨by decide, generated_result_no_resource_overlap snapTrivial cfgTrivial
    entriesTrivial (by decide)⟩

/-- C4 witness: the idempotence theorem applied to the trivial-success run. -/
theorem generation_idempotent_locked_witness :
    generate snapTrivial cfgTrivial = GenResult.success entriesTrivial ∧
    generate { snapTrivial with existingEntries := entriesTrivial }
      { cfgTrivial with lockExistingEntries := true } =
      GenResult.success entriesTrivial :=
  ⟨by decide, generation_idempotent_locked snapTrivial cfgTrivial
    entriesTrivial (by decide)⟩

/-- A one-hour demand for course 10 in section 100. -/
def demandAlpha : CourseDemand where
  demandId := 1
  courseId := 10
  sectionId := 100
  hoursPerWeek := 1
  requiredRoomType := none
  requiredEquipment := []

/-- A one-hour demand for course 11 in the same section 100. -/
def demandBeta : CourseDemand where
  demandId := 2
  courseId := 11
  sectionId := 100
  hoursPerWeek := 1
  requiredRoomType := none
  requiredEquipment := []

/-- A teacher eligible only for course 11. -/
def teacherBeta : TeacherCapacity where
  teacherId := 21
  eligibleCourses := [11]
  primaryCourses := []
  maxHoursPerWeek := 20
  unavailableDays := []
  preferredSlots := []

/-- Forced-conflict snapshot: two demands for the same section competing for
the single available time slot. -/
def snapClash : Snapshot where
  demands := [demandAlpha, demandBeta]
  teachers := [teacherMain, teacherBeta]
  rooms := [roomMain]
  slots := [slotNine]
  sections := [sectionMain]
  existingEntries := []

/-- A configuration with a 5-step budget. -/
def cfgClash : GenerationConfig where
  maxSearchSteps := 5
  softWeightPreferredSlot := 1
  softWeightPrimaryTeacher := 1
  lockExistingEntries := false

/-- The conflict the forced-conflict snapshot produces. -/
def clashConflict : Conflict where
  demandId := 1
  kind := ConflictKind.noFeasibleCandidate

/-- C5 witness: the forced-conflict run yields the same `SearchConflict`
after raising the budget, by the budget-independence theorem. -/
theorem timeout_distinct_from_conflict_witness :
    generate snapClash cfgClash = GenResult.conflict clashConflict ∧
    cfgClash.maxSearchSteps ≤ 9 ∧
    generate snapClash { cfgClash with maxSearchSteps := 9 } =
      GenResult.conflict clashConflict :=
  ⟨by decide, by decide,
    timeout_distinct_from_conflict.2 snapClash cfgClash clashConflict 9
      (by decide) (by decide)⟩

/-- Static-infeasibility snapshot: one demand and no teachers at all. -/
def snapNoTeacher : Snapshot where
  demands := [demandAlpha]
  teachers := []
  rooms := [roomMain]
  slots := [slotNine]
  sections := [sectionMain]
  existingEntries := []

/-- C3 witness: the model-error theorem applied with a zero step budget to a
snapshot whose only demand has no eligible teacher. -/
theorem model_error_reported_before_search_witness :
    snapNoTeacher.sections.isEmpty = false ∧
    eligibleTeachers snapNoTeacher demandAlpha = [] ∧
    (∃ e : ModelError,
      generate snapNoTeacher { cfgClash with maxSearchSteps := 0 } =
        GenResult.modelError e ∧
      modelErrorSound snapNoTeacher e) :=
  ⟨rfl, by decide,
    model_error_reported_before_search snapNoTeacher cfgClash 0 demandAlpha
      rfl rfl (by decide) (Or.inl (by decide))⟩
